import Mathlib

set_option maxRecDepth 8192

/-!
Verification development for the request/session engine of the `api`
package (`api/client.go`) of the provision repository.

The Go code is shallowly embedded: the fluent request builder `R` and the
`Client` session state become Lean structures, and the retry/execution
engine becomes a pure function over an `Oracle` that abstracts the world
outside the process (the value observed at each read of the closed flag,
and the outcome of each network attempt together with the outcomes of the
impure decode/read steps on its response body).
-/

namespace Provision

/-- Modelled from the spec: the accumulating error object `models.Error`
(declared in the models package, outside `src/`).  Each `Errorf`/`AddError`
call appends one message; `ContainsError` reports whether any message has
been recorded; `HasError` returns the error itself when a message exists
and nil (`none`) otherwise. -/
structure ModelsError where
  etype : String := ""
  model : String := ""
  key : String := ""
  code : Nat := 0
  messages : List String := []
deriving Repr, DecidableEq

/-- models.Error.Errorf / AddError: record one more message. -/
def ModelsError.errorf (e : ModelsError) (msg : String) : ModelsError :=
  { e with messages := e.messages ++ [msg] }

/-- models.Error.ContainsError. -/
def ModelsError.containsError (e : ModelsError) : Bool :=
  !e.messages.isEmpty

/-- models.Error.HasError: nil when no message has been recorded. -/
def ModelsError.hasError (e : ModelsError) : Option ModelsError :=
  if e.messages.isEmpty then none else some e

/-- http.Header, as an ordered multimap (key canonicalisation is omitted:
every key used by this package is already in canonical form). -/
abbrev Header := List (String × String)

/-- http.Header.Add: appends a value for the key. -/
def headerAdd (h : Header) (k v : String) : Header := h ++ [(k, v)]

/-- All values recorded for a key, in insertion order. -/
def headerValues (h : Header) (k : String) : List String :=
  (h.filter (fun p => p.1 == k)).map (fun p => p.2)

/-- http.Header.Get: first value for the key, or the empty string. -/
def headerGet (h : Header) (k : String) : String :=
  (headerValues h k).headD ""

/-- url.Values: a map from key to list of values, kept as an association
list whose keys stay unique because this package only ever calls `Set`. -/
abbrev Values := List (String × List String)

/-- url.Values.Set: replace all values of the key by the single value v. -/
def Values.set : Values → String → String → Values
  | [], k, v => [(k, [v])]
  | (k1, vs) :: rest, k, v =>
      if k1 == k then (k, [v]) :: rest else (k1, vs) :: Values.set rest k v

/-- The list of values stored for a key (url.Values is a map; lookup). -/
def Values.get : Values → String → List String
  | [], _ => []
  | (k1, vs) :: rest, k => if k1 == k then vs else Values.get rest k

/-- models.Info: basic system information cached by the Client
(architecture, OS, address, static-file port). -/
structure Info where
  arch : String := ""
  os : String := ""
  address : String := ""
  filePort : Nat := 0
deriving Repr, DecidableEq

/-- The zero models.Info value allocated by Client.Info before the fetch. -/
def emptyInfo : Info := {}

/-- The retry-relevant shape of a request body source: whether it is an
io.ReadSeeker, and whether Seek(0, io.SeekStart) returns offset 0 with a
nil error. -/
structure BodyRT where
  seekable : Bool
  seekOk : Bool
deriving Repr, DecidableEq

/-- The session state of api.Client that the embedded operations touch:
endpoint, round-trip timeout, the closed flag, whether the closer channel
has already been closed, trace defaults, url proxy segment, and the cached
server Info. -/
structure ClientState where
  endpoint : String := ""
  roundTripTimeout : Nat := 0
  closed : Bool := false
  closerClosed : Bool := false
  traceLvl : String := ""
  traceToken : String := ""
  urlProxy : String := ""
  neverProxy : Bool := true
  info : Option Info := none
deriving Repr, DecidableEq

/-- APIPATH, the base path for all API endpoints. -/
def APIPATH : String := "/api/v3"

/-- Collapse runs of repeated slashes, the part of path.Clean exercised by
the joins in this package (no "." or ".." segments ever occur). -/
def squeezeSlashes : List Char → List Char
  | [] => []
  | [a] => [a]
  | a :: b :: rest =>
      if a == '/' && b == '/' then squeezeSlashes (b :: rest)
      else a :: squeezeSlashes (b :: rest)

/-- Go path.Join: drop empty elements, join with "/", and clean the
result. -/
def pathJoinList (elems : List String) : String :=
  String.mk (squeezeSlashes
    (String.intercalate "/" (elems.filter (fun s => !(s == "")))).toList)

/-- url.ParseRequestURI: succeeds on every absolute URL this package
forms, so it is modelled as total, returning the URL text itself. -/
def parseRequestURI (s : String) : Option String :=
  some s

/-- Client.realEndpoint: locallyProxied consults the RS_LOCAL_PROXY
environment variable and the filesystem; modelled with no local proxy
present, so the configured endpoint is used directly. -/
def ClientState.realEndpoint (c : ClientState) : String :=
  c.endpoint

/-- Client.UrlForProxy (client.go lines 87-92). -/
def ClientState.UrlForProxy (c : ClientState) (pxy : String) (args : List String) :
    Option String :=
  if pxy == "" then
    parseRequestURI (c.realEndpoint ++ pathJoinList [APIPATH, pathJoinList args])
  else
    parseRequestURI (c.realEndpoint ++ "/" ++ pxy ++ pathJoinList [APIPATH, pathJoinList args])

/-- The request descriptor R (client.go lines 141-157).  `ctxBackground`
records whether r.ctx is still context.Background(); `eTag` is the ETag
captured from the last response. -/
structure R where
  c : ClientState
  method : String := "GET"
  uri : Option String := none
  header : Header := []
  body : Option BodyRT := none
  err : ModelsError := {}
  paranoid : Bool := false
  noRetry : Bool := false
  traceLvl : String := ""
  traceToken : String := ""
  proxy : String := ""
  params : Values := []
  ctxBackground : Bool := true
  eTag : String := ""

/-- Client.Req (client.go lines 161-178). -/
def ClientState.Req (c : ClientState) : R :=
  { c := c
    traceLvl := c.traceLvl
    traceToken := c.traceToken
    method := "GET"
    header := []
    proxy := c.urlProxy
    params := []
    ctxBackground := true
    err := { etype := "CLIENT_ERROR" } }

/-- R.Context: attaching a caller context disables the retry logic. -/
def R.Context (r : R) : R :=
  { r with ctxBackground := false, noRetry := true }

/-- R.Proxy. -/
def R.Proxy (r : R) (pxy : String) : R :=
  { r with proxy := pxy }

/-- R.Meth. -/
def R.Meth (r : R) (v : String) : R :=
  { r with method := v }

/-- R.Get. -/
def R.Get (r : R) : R := r.Meth "GET"

/-- R.Del. -/
def R.Del (r : R) : R := r.Meth "DELETE"

/-- R.Head. -/
def R.Head (r : R) : R := r.Meth "HEAD"

/-- R.FailFast: skip the backoff retry on transient errors. -/
def R.FailFast (r : R) : R :=
  { r with noRetry := true }

/-- R.Wait: attach the long-poll headers. -/
def R.Wait (r : R) (etag dur : String) : R :=
  let h1 := headerAdd r.header "If-None-Match" etag
  { r with header := headerAdd h1 "Prefer" ("wait=" ++ dur) }

/-- R.UrlFor (client.go lines 332-340): on a parse error the error is
recorded on the descriptor, otherwise the URI is stored. -/
def R.UrlFor (r : R) (args : List String) : R :=
  match r.c.UrlForProxy r.proxy args with
  | none => { r with err := r.err.errorf "url parse error" }
  | some u => { r with uri := some u }

/-- Helper for the variadic Headers call: add the alternating key/value
pairs in order. -/
def addPairs : Header → List String → Header
  | h, k :: v :: rest => addPairs (headerAdd h k v) rest
  | h, _ => h

/-- R.Headers (client.go lines 449-461): error on an odd argument count,
otherwise Add each pair. -/
def R.Headers (r : R) (args : List String) : R :=
  if args.length % 2 == 1 then
    { r with err := r.err.errorf "WithHeaders was not passed an even number of arguments" }
  else
    { r with header := addPairs r.header args }

/-- Helper for the variadic Params call: Set each alternating key/value
pair in order. -/
def setPairs : Values → List String → Values
  | ps, k :: v :: rest => setPairs (Values.set ps k v) rest
  | ps, _ => ps

/-- R.Params (client.go lines 355-364): error on an odd argument count,
otherwise Set (overwrite) each key. -/
def R.Params (r : R) (args : List String) : R :=
  if args.length % 2 == 1 then
    { r with err := r.err.errorf "Params was not passed an even number of arguments" }
  else
    { r with params := setPairs r.params args }

/-- The body argument of R.Body, by the cases the Go type switch
distinguishes: nil, an io.Reader (with its retry-relevant shape), a byte
slice, and any other value which is marshalled to JSON (the flag records
whether json.Marshal succeeds). -/
inductive BodyVal where
  | vnil
  | vreader (seekable seekOk : Bool)
  | vbytes
  | vjson (marshalOk : Bool)
deriving Repr, DecidableEq

/-- R.Body (client.go lines 472-492). bytes.NewReader yields an
io.ReadSeeker whose rewind always succeeds. -/
def R.Body (r : R) (b : BodyVal) : R :=
  match b with
  | .vnil => r.Headers ["Content-Type", "application/json"]
  | .vreader sk ok =>
      let r1 := r.Headers ["Content-Type", "application/octet-stream"]
      { r1 with body := some ⟨sk, ok⟩ }
  | .vbytes =>
      let r1 := r.Headers ["Content-Type", "application/octet-stream"]
      { r1 with body := some ⟨true, true⟩ }
  | .vjson ok =>
      let r1 := r.Headers ["Content-Type", "application/json"]
      if ok then { r1 with body := some ⟨true, true⟩ }
      else { r1 with err := r1.err.errorf "json marshal error" }

/-- strings.ToLower, character by character (the operator tokens Filter
accepts are ASCII words). -/
def goToLower (s : String) : String :=
  String.mk (s.toList.map Char.toLower)

/-- strings.Title (strings.ToLower op) for the single-word operator tokens
Filter accepts: lowercase the word, then capitalise its first letter. -/
def goTitleLower (s : String) : String :=
  match (goToLower s).toList with
  | [] => ""
  | ch :: rest => String.mk (ch.toUpper :: rest)

/-- strings.Contains for a single separator character. -/
def goContainsChar (s : String) (sep : Char) : Bool :=
  s.toList.contains sep

/-- fmt.Sprintf with pattern op, open paren, value, close paren. -/
def sprintfOp1 (op v : String) : String := op ++ "(" ++ v ++ ")"

/-- fmt.Sprintf with pattern op, open paren, two comma-joined values,
close paren. -/
def sprintfOp2 (op v w : String) : String := op ++ "(" ++ v ++ "," ++ w ++ ")"

/-- The scanning loop of R.Filter (client.go lines 396-443), returning
either the first validation error message or the compiled finalParams
list. -/
def filterLoop : List String → Except String (List String)
  | [] => .ok []
  | fl :: rest =>
    if fl == "reverse" || fl == "decode" then
      (filterLoop rest).map (fun ps => fl :: "true" :: ps)
    else if fl == "sort" || fl == "limit" || fl == "offset" || fl == "slim" || fl == "params" then
      match rest with
      | [] => .error ("Invalid Filter: " ++ fl ++ " requires exactly one parameter")
      | v :: rest2 => (filterLoop rest2).map (fun ps => fl :: v :: ps)
    else
      match rest with
      | [] => .error ("Invalid Filter: " ++ fl ++ " requires an op and at least 1 parameter")
      | opRaw :: rest2 =>
        let op := goTitleLower opRaw
        if op == "Eq" || op == "Lt" || op == "Lte" || op == "Gt" || op == "Gte" ||
            op == "Ne" || op == "In" || op == "Nin" || op == "Re" then
          match rest2 with
          | [] => .error ("Invalid Filter: " ++ fl ++ " op " ++ op ++ " requires 1 parameter")
          | v :: rest3 => (filterLoop rest3).map (fun ps => fl :: sprintfOp1 op v :: ps)
        else if op == "Between" || op == "Except" then
          match rest2 with
          | [] => .error ("Invalid Filter: " ++ fl ++ " op " ++ op ++ " requires 1 or 2 parameters")
          | v :: rest3 =>
            if goContainsChar v ',' then
              (filterLoop rest3).map (fun ps => fl :: sprintfOp1 op v :: ps)
            else
              match rest3 with
              | [] => .error ("Invalid Filter: " ++ fl ++ " op " ++ op ++ " requires 1 or 2 parameters")
              | w :: rest4 => (filterLoop rest4).map (fun ps => fl :: sprintfOp2 op v w :: ps)
        else .error ("Invalid Filter " ++ fl ++ ": unknown op " ++ op)

/-- R.Filter (client.go lines 394-445): Get the prefix URL, compile the
filter mini-language, and either record the validation error or Set the
compiled query parameters. -/
def R.Filter (r : R) (pfx : String) (filterArgs : List String) : R :=
  let r1 := (r.Get).UrlFor [pfx]
  match filterLoop filterArgs with
  | .error msg => { r1 with err := r1.err.errorf msg }
  | .ok finalParams => r1.Params finalParams

/-- An HTTP response as the engine observes it, together with the outcomes
of the impure steps Do later performs on it (reading the body, JSON
decoding, header remarshalling, io.Copy): those steps live outside the
pure embedding, so their results are carried as fields supplied by the
oracle. -/
structure Resp where
  status : Nat
  eTag : String := ""
  contentType : String := "application/json"
  contentLength : Int := -1
  bodyBytes : List Nat := []
  bodyText : String := ""
  dumpText : String := ""
  bodyReadOk : Bool := true
  bodyReadErrMsg : String := ""
  errBodyDecode : Option ModelsError := none
  unmarshalErrMsg : String := ""
  copyOk : Bool := true
  copyErrMsg : String := ""
  headerInfo : Option Info := none
  headerRemarshalErrMsg : String := ""
  jsonDecodeInfo : Option Info := none
  decodeErrMsg : String := ""
deriving Repr, DecidableEq

/-- Outcome of one network attempt: a transport-level error (connection
failure, timeout, cancellation) or an HTTP response of any status. -/
inductive NetResult where
  | transportErr (msg : String)
  | httpResp (resp : Resp)
deriving Repr, DecidableEq

/-- The environment of one round trip: `closedAt n` is the value of
c.closed observed at the n-th read the engine performs (read 0 is the
pre-flight check), and `net n` is the outcome of the n-th network attempt.
Making the closed flag a function of the read index models a concurrent
Close. -/
structure Oracle where
  closedAt : Nat → Bool
  net : Nat → NetResult

/-- The oracle of a round trip during which no concurrent Close happens:
every read of the closed flag observes the same client state. -/
def seqOracle (c : ClientState) (net : Nat → NetResult) : Oracle :=
  ⟨fun _ => c.closed, net⟩

/-- What R.Response produces: the round-trip result, the number of network
attempts performed, the backoff sleeps performed (in order), the cached
server Info after execution, and the captured response ETag. -/
structure RespOut where
  result : Except ModelsError Resp
  attempts : Nat
  waits : List Nat
  infoAfter : Option Info
  eTagOut : String

/-- The fixed backoff schedule (client.go lines 530-537), in seconds. -/
def timeouts : List Nat := [1, 1, 2, 3, 5, 8]

/-- The retry loop of R.Response (client.go lines 540-584).  `eb` is r.err
at loop entry, `a` counts attempts already made, `cr` indexes the next
read of the closed flag, `inf` is the cached Info, `ws` the sleeps
performed so far, `lm` the message of the last transport error.  Building
the outgoing http.Request and Authorize only shape the wire request, which
the oracle abstracts, so they do not appear. -/
def respLoop (eb : ModelsError) (body : Option BodyRT) (noRetry : Bool) (or : Oracle) :
    List Nat → Nat → Nat → Option Info → List Nat → String → RespOut
  | [], a, _, inf, ws, lm =>
      { result := .error (eb.errorf lm), attempts := a, waits := ws,
        infoAfter := inf, eTagOut := "" }
  | waitFor :: restT, a, cr, inf, ws, _ =>
      match or.net a with
      | .httpResp resp =>
          { result := .ok resp, attempts := a + 1, waits := ws,
            infoAfter := inf, eTagOut := resp.eTag }
      | .transportErr msg =>
          if noRetry then
            { result := .error (eb.errorf msg), attempts := a + 1, waits := ws,
              infoAfter := inf, eTagOut := "" }
          else
            match body with
            | none =>
                if or.closedAt cr then
                  { result := .error (eb.errorf "Connection Closed"), attempts := a + 1,
                    waits := ws, infoAfter := inf, eTagOut := "" }
                else
                  respLoop eb body noRetry or restT (a + 1) (cr + 1) none
                    (ws ++ [waitFor]) msg
            | some b =>
                if !b.seekable then
                  { result := .error (eb.errorf msg), attempts := a + 1, waits := ws,
                    infoAfter := inf, eTagOut := "" }
                else if !b.seekOk then
                  { result := .error (eb.errorf msg), attempts := a + 1, waits := ws,
                    infoAfter := inf, eTagOut := "" }
                else if or.closedAt cr then
                  { result := .error (eb.errorf "Connection Closed"), attempts := a + 1,
                    waits := ws, infoAfter := inf, eTagOut := "" }
                else
                  respLoop eb body noRetry or restT (a + 1) (cr + 1) inf
                    (ws ++ [waitFor]) msg

/-- R.Response (client.go lines 503-592).  The pre-loop header assembly
(Cache-Control, trace headers) and the query-string encoding only shape
the wire request, which the oracle abstracts. -/
def R.Response (r : R) (or : Oracle) : RespOut :=
  if r.uri = none then
    { result := .error (r.err.errorf "No URL to talk to"), attempts := 0, waits := [],
      infoAfter := r.c.info, eTagOut := "" }
  else
    let noRetry := r.noRetry || (decide (0 < r.c.roundTripTimeout) && r.ctxBackground)
    if or.closedAt 0 then
      { result := .error (r.err.errorf "Connection Closed"), attempts := 0, waits := [],
        infoAfter := r.c.info, eTagOut := "" }
    else if r.err.containsError then
      { result := .error r.err, attempts := 0, waits := [],
        infoAfter := r.c.info, eTagOut := "" }
    else
      respLoop r.err r.body noRetry or timeouts 0 1 r.c.info [] ""

/-- The destination value passed to R.Do, by the cases the claims need:
nil, an io.Writer (with whether it also implements io.WriteSeeker), or a
models.Info object to decode into (the shape Client.Info uses). -/
inductive DoVal where
  | vnone
  | vwriter (seekable : Bool)
  | vinfo (start : Info)
deriving Repr, DecidableEq

/-- Initial contents of an Info destination. -/
def doValStart : DoVal → Info
  | .vinfo i => i
  | _ => {}

/-- An io.Writer destination with a write position, enough to model
io.Copy, Seek to end, and Truncate. -/
structure FileModel where
  data : List Nat := []
  pos : Nat := 0
deriving Repr, DecidableEq

/-- Write bytes at the current position, overwriting and extending. -/
def fileWrite (f : FileModel) (bs : List Nat) : FileModel :=
  { data := f.data.take f.pos ++ bs ++ f.data.drop (f.pos + bs.length)
    pos := f.pos + bs.length }

/-- The Go error value R.Do returns: either a models.Error or a plain
error (for example a body read failure). -/
inductive DoErr where
  | me (e : ModelsError)
  | raw (msg : String)
deriving Repr, DecidableEq

/-- What R.Do produces: the returned error (none on success), attempts and
sleeps performed, cached Info after execution, the final state of a writer
destination, and the final contents of an Info destination. -/
structure DoOut where
  err : Option DoErr
  attempts : Nat
  waits : List Nat
  infoAfter : Option Info
  sink : FileModel
  infoVal : Info

/-- The header mutations R.Do performs before executing (client.go lines
608-612): Accept application/json always, plus application/octet-stream
when the destination is an io.Writer. -/
def doR2 (r : R) (val : DoVal) : R :=
  let r1 := r.Headers ["Accept", "application/json"]
  match val with
  | .vwriter _ => r1.Headers ["Accept", "application/octet-stream"]
  | _ => r1

/-- http.StatusText, restricted to the codes exercised here (it returns
the empty string for an unknown code). -/
def statusText (code : Nat) : String :=
  if code == 304 then "Not Modified"
  else if code == 400 then "Bad Request"
  else if code == 404 then "Not Found"
  else if code == 500 then "Internal Server Error"
  else ""

/-- Drop leading spaces from a character list. -/
def dropSpaces (cs : List Char) : List Char :=
  cs.dropWhile (fun c2 => c2 == ' ')

/-- mime.ParseMediaType on the Content-Type header: keep the part before
any parameters, trim surrounding space, lowercase; Do ignores its error
return. -/
def goMediaType (ct : String) : String :=
  let untilSemi := ct.toList.takeWhile (fun c2 => !(c2 == ';'))
  goToLower (String.mk ((dropSpaces ((dropSpaces untilSemi).reverse)).reverse))

/-- The tail of R.Do after the writer branch (client.go lines 654-689):
HEAD handling, 304 handling, content-type dispatch and JSON decode.
Returns the error, the writer destination and the Info destination.  The
final models.Filler branch never fires because the err variable it tests
is nil on this path. -/
def doTail (r2 : R) (resp : Resp) (val : DoVal) (sink : FileModel) :
    Option DoErr × FileModel × Info :=
  if r2.method == "HEAD" then
    if resp.status ≤ 300 || resp.status == 304 then
      match val with
      | .vnone => (none, sink, doValStart val)
      | _ =>
          match resp.headerInfo with
          | some v =>
              (none, sink, match val with
                | .vinfo _ => v
                | _ => doValStart val)
          | none => (some (.raw resp.headerRemarshalErrMsg), sink, doValStart val)
    else
      (some (.me { r2.err with
          code := resp.status,
          messages := r2.err.messages ++ [statusText resp.status] }), sink, doValStart val)
  else if resp.status == 304 then (none, sink, doValStart val)
  else
    let mt := goMediaType resp.contentType
    if mt == "application/json" then
      match val with
      | .vnone => ((r2.err).hasError.map .me, sink, doValStart val)
      | .vwriter _ =>
          if resp.contentLength == 0 then
            ((r2.err).hasError.map .me, sink, doValStart val)
          else
            let e2 := r2.err.errorf resp.decodeErrMsg
            (e2.hasError.map .me, sink, doValStart val)
      | .vinfo _ =>
          if resp.contentLength == 0 then
            ((r2.err).hasError.map .me, sink, doValStart val)
          else
            match resp.jsonDecodeInfo with
            | some v => ((r2.err).hasError.map .me, sink, v)
            | none =>
                let e2 := r2.err.errorf resp.decodeErrMsg
                (e2.hasError.map .me, sink, doValStart val)
    else
      let e1 := r2.err.errorf ("Cannot handle content-type " ++ resp.contentType)
      let e2 := e1.errorf ("Resp: \n" ++ resp.dumpText)
      let e3 := e2.errorf ("No decoder for content-type " ++ resp.contentType)
      (some (.me e3), sink, doValStart val)

/-- The response-interpretation part of R.Do once Response has succeeded
(client.go lines 620-689): structured-error decoding for status at least
400, writer/304 handling, then the doTail dispatch. -/
def doFinish (r2 : R) (resp : Resp) (val : DoVal) (sink : FileModel) :
    Option DoErr × FileModel × Info :=
  if 400 ≤ resp.status then
    if r2.method == "HEAD" then
      (some (.me { r2.err with
          code := resp.status,
          messages := r2.err.messages ++ [statusText resp.status] }), sink, doValStart val)
    else if !resp.bodyReadOk then
      (some (.raw resp.bodyReadErrMsg), sink, doValStart val)
    else
      match resp.errBodyDecode with
      | some res => (some (.me res), sink, doValStart val)
      | none =>
          let e1 := { r2.err with code := resp.status }
          let e2 := e1.errorf resp.unmarshalErrMsg
          let e3 := e2.errorf ("Raw response: " ++ resp.bodyText)
          (some (.me e3), sink, doValStart val)
  else
    match val with
    | .vwriter seekable =>
        if resp.status == 304 then
          (none, if seekable then { sink with pos := sink.data.length } else sink,
            doValStart val)
        else if resp.status < 300 then
          let sink2 := fileWrite sink resp.bodyBytes
          (if resp.copyOk then none
            else some (.me (r2.err.errorf resp.copyErrMsg)), sink2, doValStart val)
        else doTail r2 resp val sink
    | _ => doTail r2 resp val sink

/-- R.Do (client.go lines 607-690). -/
def R.Do (r : R) (or : Oracle) (val : DoVal) (sink : FileModel) : DoOut :=
  let r2 := doR2 r val
  let ro := r2.Response or
  match ro.result with
  | .error e =>
      { err := some (.me e), attempts := ro.attempts, waits := ro.waits,
        infoAfter := ro.infoAfter, sink := sink, infoVal := doValStart val }
  | .ok resp =>
      let fin := doFinish r2 resp val sink
      { err := fin.1, attempts := ro.attempts, waits := ro.waits,
        infoAfter := ro.infoAfter, sink := fin.2.1, infoVal := fin.2.2 }

/-- Client.Close (client.go lines 700-708): close(c.closer) panics when
the channel is already closed; otherwise mark closed and drop the cached
Info. -/
inductive CloseResult where
  | ok (c : ClientState)
  | panicked (msg : String)
deriving Repr, DecidableEq

/-- Client.Close. -/
def ClientState.Close (c : ClientState) : CloseResult :=
  if c.closerClosed then .panicked "close of closed channel"
  else .ok { c with closerClosed := true, closed := true, info := none }

/-- What Client.Info produces: the returned Info, the returned error, the
network attempts performed, and the client state afterwards. -/
structure InfoOut where
  value : Info
  err : Option DoErr
  attempts : Nat
  cOut : ClientState

/-- Client.Info (client.go lines 723-732): return the cached Info when
present; otherwise allocate an empty Info, cache it, and decode the /info
response into that same object (the retry path of Response may null the
cache field while the object itself persists). -/
def ClientState.Info (c : ClientState) (or : Oracle) : InfoOut :=
  match c.info with
  | some i => { value := i, err := none, attempts := 0, cOut := c }
  | none =>
      let c1 := { c with info := some emptyInfo }
      let d := ((c1.Req).UrlFor ["info"]).Do or (.vinfo emptyInfo) {}
      { value := d.infoVal
        err := d.err
        attempts := d.attempts
        cOut := { c1 with info := if d.infoAfter.isSome then some d.infoVal else none } }

/-- The destination of Client.GetBlob as its fingerprinting step sees it:
either a local os.File (with the outcome of ModTimeSha.Regenerate on it)
or any other writer. -/
structure BlobFile where
  regenErr : Bool := false
  sumStr : String := ""
deriving Repr, DecidableEq

/-- GetBlob destination kind. -/
inductive BlobDest where
  | file (f : BlobFile)
  | other
deriving Repr, DecidableEq

/-- The request-construction part of Client.GetBlob (client.go lines
773-789).  Modelled from the spec: ModTimeSha (declared in the models
package, outside src) computes a checksum fingerprint derived from
modification time and size; `regenErr` records whether Regenerate returned
a non-nil error and `sumStr` the String() form of the fingerprint.  The
source sets shasum only when Regenerate returns a NON-nil error. -/
def ClientState.GetBlobReq (c : ClientState) (dest : BlobDest) (locs : List String) : R :=
  let req := (c.Req).UrlFor [pathJoinList ["/", pathJoinList locs]]
  let shasum := match dest with
    | .file f => if f.regenErr then f.sumStr else ""
    | .other => ""
  if !(shasum == "") then
    req.Headers ["If-None-Match", "\"SHA256:" ++ shasum ++ "\""]
  else req

/-! ## Helper lemmas -/

/-- A concrete client configuration used by the concrete instances. -/
def defaultClient : ClientState := { endpoint := "https://127.0.0.1:8092" }

lemma mem_messages_errorf (e : ModelsError) (s m : String) (h : m ∈ e.messages) :
    m ∈ (e.errorf s).messages := by
  simp [ModelsError.errorf, h]

lemma self_mem_messages_errorf (e : ModelsError) (s : String) :
    s ∈ (e.errorf s).messages := by
  simp [ModelsError.errorf]

@[simp] lemma doR2_err (r : R) (val : DoVal) : (doR2 r val).err = r.err := by
  cases val <;> rfl

@[simp] lemma doR2_uri (r : R) (val : DoVal) : (doR2 r val).uri = r.uri := by
  cases val <;> rfl

@[simp] lemma doR2_c (r : R) (val : DoVal) : (doR2 r val).c = r.c := by
  cases val <;> rfl

@[simp] lemma doR2_method (r : R) (val : DoVal) : (doR2 r val).method = r.method := by
  cases val <;> rfl

@[simp] lemma doR2_body (r : R) (val : DoVal) : (doR2 r val).body = r.body := by
  cases val <;> rfl

@[simp] lemma doR2_noRetry (r : R) (val : DoVal) : (doR2 r val).noRetry = r.noRetry := by
  cases val <;> rfl

@[simp] lemma doR2_ctxBackground (r : R) (val : DoVal) :
    (doR2 r val).ctxBackground = r.ctxBackground := by
  cases val <;> rfl

/-- R.Do reports exactly the attempt count of the Response it ran. -/
lemma Do_attempts (r : R) (or : Oracle) (val : DoVal) (sink : FileModel) :
    (r.Do or val sink).attempts = ((doR2 r val).Response or).attempts := by
  unfold R.Do
  rcases h : ((doR2 r val).Response or).result with e | resp <;> simp [h]

/-- Response on a descriptor with no URL: no attempt, the no-URL message
is appended. -/
lemma Response_noUrl (r : R) (or : Oracle) (h : r.uri = none) :
    r.Response or =
      { result := .error (r.err.errorf "No URL to talk to"), attempts := 0, waits := [],
        infoAfter := r.c.info, eTagOut := "" } := by
  unfold R.Response
  simp [h]

/-- Response when the pre-flight closed check observes a closed client:
no attempt, the Connection Closed message is appended. -/
lemma Response_closed_preflight (r : R) (or : Oracle) (u : String)
    (hu : r.uri = some u) (hcl : or.closedAt 0 = true) :
    r.Response or =
      { result := .error (r.err.errorf "Connection Closed"), attempts := 0, waits := [],
        infoAfter := r.c.info, eTagOut := "" } := by
  unfold R.Response
  simp [hu, hcl]

/-- Response short-circuits with zero attempts whenever a builder step
already recorded an error, whatever the oracle and URL are, and the error
it returns keeps every recorded message. -/
lemma Response_short_err (r : R) (or : Oracle) (he : r.err.containsError = true) :
    (r.Response or).attempts = 0 ∧
      ∃ e, (r.Response or).result = .error e ∧ ∀ m ∈ r.err.messages, m ∈ e.messages := by
  rcases hu : r.uri with _ | u
  · rw [Response_noUrl r or hu]
    exact ⟨rfl, _, rfl, fun m hm => mem_messages_errorf _ _ _ hm⟩
  · rcases hcl : or.closedAt 0 with _ | _
    · refine ⟨?_, r.err, ?_, fun m hm => hm⟩ <;>
        · unfold R.Response
          simp [hu, hcl, he]
    · rw [Response_closed_preflight r or u hu hcl]
      exact ⟨rfl, _, rfl, fun m hm => mem_messages_errorf _ _ _ hm⟩

/-- Response when the first network attempt returns an HTTP response:
exactly one attempt, no sleeps, the cached Info untouched. -/
lemma Response_first_ok (r : R) (or : Oracle) (u : String) (resp : Resp)
    (hu : r.uri = some u) (he : r.err.messages = [])
    (h0 : or.closedAt 0 = false) (hn : or.net 0 = .httpResp resp) :
    r.Response or =
      { result := .ok resp, attempts := 1, waits := [],
        infoAfter := r.c.info, eTagOut := resp.eTag } := by
  unfold R.Response
  simp [hu, h0, ModelsError.containsError, he, timeouts, respLoop, hn]

/-- Response reduces to the retry loop when the descriptor is error-free,
has a URL, retry is enabled, and the pre-flight closed check passes. -/
lemma Response_enters_loop (r : R) (or : Oracle) (u : String)
    (hu : r.uri = some u) (he : r.err.messages = [])
    (hnr : r.noRetry = false) (hrtt : r.c.roundTripTimeout = 0)
    (h0 : or.closedAt 0 = false) :
    r.Response or = respLoop r.err r.body false or timeouts 0 1 r.c.info [] "" := by
  unfold R.Response
  simp [hu, h0, ModelsError.containsError, he, hnr, hrtt]

/-- Setting a key stores exactly the one value just written. -/
lemma Values.get_set (ps : Values) (k v : String) :
    Values.get (Values.set ps k v) k = [v] := by
  induction ps with
  | nil => simp [Values.set, Values.get]
  | cons p rest ih =>
      obtain ⟨k1, vs⟩ := p
      by_cases h : (k1 == k) = true
      · simp [Values.set, Values.get, h]
      · simp only [Values.set, Values.get, h, Bool.false_eq_true, if_false, if_neg]
        exact ih

/-! ## Claim theorems -/

/-- C5 (code bug, evaluated at the failing input): when the checksum
fingerprint of the destination file is successfully computed (Regenerate
returns a nil error, sum "abc"), GetBlob attaches NO If-None-Match header
and records no error; the header is attached exactly when Regenerate
FAILS.  The claim (and the doc comment of GetBlob itself) requires the
fingerprint header on the success path. -/
theorem getblob_conditional_header_inverted :
    headerValues ((defaultClient.GetBlobReq
        (.file { regenErr := false, sumStr := "abc" }) ["files", "x"]).header)
      "If-None-Match" = [] ∧
    ((defaultClient.GetBlobReq
        (.file { regenErr := false, sumStr := "abc" }) ["files", "x"]).err.containsError
      = false) ∧
    headerValues ((defaultClient.GetBlobReq
        (.file { regenErr := true, sumStr := "abc" }) ["files", "x"]).header)
      "If-None-Match" = ["\"SHA256:abc\""] := by
  refine ⟨?_, ?_, ?_⟩ <;> rfl

/-- C6: Params with a repeated key keeps exactly one value for the key,
the last one written; this holds for the concrete chain of the claim and
for any descriptor, both within one Params call and across two calls. -/
theorem params_last_write_wins :
    (((defaultClient.Req).Params ["a", "1", "a", "2"]).params = [("a", ["2"])] ∧
      Values.get (((defaultClient.Req).Params ["a", "1", "a", "2"]).params) "a" = ["2"]) ∧
    (∀ (r : R) (k v1 v2 : String),
      Values.get ((r.Params [k, v1, k, v2]).params) k = [v2] ∧
      Values.get (((r.Params [k, v1]).Params [k, v2]).params) k = [v2]) := by
  refine ⟨⟨rfl, rfl⟩, fun r k v1 v2 => ⟨?_, ?_⟩⟩ <;>
    simp [R.Params, setPairs, Values.get_set]

/-- C9: Close is one-shot: on a client whose closer channel is still open
it succeeds, marks the client closed, and a second Close on the resulting
client panics by closing an already-closed channel. -/
theorem close_is_one_shot (c : ClientState) (h : c.closerClosed = false) :
    ∃ c2, c.Close = .ok c2 ∧ c2.closed = true ∧ c2.closerClosed = true ∧
      c2.Close = .panicked "close of closed channel" := by
  refine ⟨{ c with closerClosed := true, closed := true, info := none }, ?_, rfl, rfl, ?_⟩
  · simp [ClientState.Close, h]
  · simp [ClientState.Close]

/-- Witness for C9 at the concrete default client. -/
theorem close_is_one_shot_witness :
    defaultClient.closerClosed = false ∧
    ∃ c2, defaultClient.Close = .ok c2 ∧ c2.closed = true ∧ c2.closerClosed = true ∧
      c2.Close = .panicked "close of closed channel" :=
  ⟨rfl, close_is_one_shot defaultClient rfl⟩

/-- The good Filter chain of C7. -/
def filterGood : R :=
  (defaultClient.Req).Filter "machines"
    ["sort", "Name", "limit", "5", "Stage", "Eq", "complete"]

/-- The unknown-operator Filter chain of C7. -/
def filterBad : R :=
  (defaultClient.Req).Filter "machines" ["Stage", "Bogus", "x"]

/-- C7: the well-formed Filter chain records no validation error and
yields exactly the query parameters sort=Name, limit=5,
Stage=Eq(complete); the unknown-operator chain records a validation error
and neither Response nor Do performs any network attempt on it. -/
theorem filter_compile_and_unknown_op :
    (filterGood.err.containsError = false ∧
      filterGood.params = [("sort", ["Name"]), ("limit", ["5"]), ("Stage", ["Eq(complete)"])]) ∧
    (filterBad.err.containsError = true ∧
      ∀ (or : Oracle) (val : DoVal) (sink : FileModel),
        (filterBad.Response or).attempts = 0 ∧ (filterBad.Do or val sink).attempts = 0) := by
  have hbad : filterBad.err.containsError = true := by decide
  refine ⟨⟨by decide, by decide⟩, hbad, fun or val sink => ⟨?_, ?_⟩⟩
  · exact (Response_short_err filterBad or hbad).1
  · rw [Do_attempts]
    exact (Response_short_err (doR2 filterBad val) or (by rw [doR2_err]; exact hbad)).1

/-- When the Response inside Do fails, Do returns exactly that
models.Error. -/
lemma Do_err_of_response_error (r : R) (or : Oracle) (val : DoVal) (sink : FileModel)
    (e : ModelsError) (h : ((doR2 r val).Response or).result = .error e) :
    (r.Do or val sink).err = some (.me e) := by
  unfold R.Do
  simp [h]

/-- C1: once any builder step records a validation error on a descriptor,
executing it via R.Response or R.Do performs zero network attempts and the
returned error retains every recorded message. -/
theorem builder_error_short_circuits (r : R) (or : Oracle) (val : DoVal) (sink : FileModel)
    (h : r.err.containsError = true) :
    ((r.Response or).attempts = 0 ∧
      ∃ e, (r.Response or).result = .error e ∧ ∀ m ∈ r.err.messages, m ∈ e.messages) ∧
    ((r.Do or val sink).attempts = 0 ∧
      ∃ e, (r.Do or val sink).err = some (.me e) ∧ ∀ m ∈ r.err.messages, m ∈ e.messages) := by
  have h2 : (doR2 r val).err.containsError = true := by rw [doR2_err]; exact h
  refine ⟨Response_short_err r or h, ?_, ?_⟩
  · rw [Do_attempts]
    exact (Response_short_err (doR2 r val) or h2).1
  · obtain ⟨e, he, hm⟩ := (Response_short_err (doR2 r val) or h2).2
    refine ⟨e, Do_err_of_response_error r or val sink e he, fun m hm2 => ?_⟩
    exact hm m (by rw [doR2_err]; exact hm2)

/-- A descriptor with a recorded validation error (odd Params count),
used as the C1 witness input. -/
def rErrC1 : R := (defaultClient.Req).Params ["a"]

/-- A concrete oracle on an open client whose network always fails. -/
def orC1 : Oracle := ⟨fun _ => false, fun _ => .transportErr "x"⟩

/-- Witness for C1 at a concrete erroneous builder chain. -/
theorem builder_error_short_circuits_witness :
    rErrC1.err.containsError = true ∧
    (((rErrC1.Response orC1).attempts = 0 ∧
      ∃ e, (rErrC1.Response orC1).result = .error e ∧
        ∀ m ∈ rErrC1.err.messages, m ∈ e.messages) ∧
    ((rErrC1.Do orC1 .vnone {}).attempts = 0 ∧
      ∃ e, (rErrC1.Do orC1 .vnone {}).err = some (.me e) ∧
        ∀ m ∈ rErrC1.err.messages, m ∈ e.messages)) :=
  ⟨by decide, builder_error_short_circuits rErrC1 orC1 .vnone {} (by decide)⟩

/-- The client state Close produces from the default client. -/
def closedClient : ClientState :=
  { defaultClient with closerClosed := true, closed := true, info := none }

/-- The error a no-URL round trip returns. -/
def noUrlErr : ModelsError :=
  { etype := "CLIENT_ERROR", messages := ["No URL to talk to"] }

/-- C2 counterexample: after Close, a round trip whose descriptor carries
no URL fails with the no-URL validation error whose messages do NOT
include Connection Closed, refuting the claim that every round trip
executed after Close fails with a Connection Closed error (no network
attempt happens on this path either). -/
theorem closed_client_error_counterexample :
    defaultClient.Close = .ok closedClient ∧
    ((closedClient.Req).Response (seqOracle closedClient (fun _ => .transportErr "x"))).result
      = .error noUrlErr ∧
    ("Connection Closed" ∈ noUrlErr.messages → False) ∧
    ((closedClient.Req).Response (seqOracle closedClient (fun _ => .transportErr "x"))).attempts
      = 0 := by
  refine ⟨by decide, rfl, by decide, rfl⟩

/-- C2 (amended): after Close, every round trip whose descriptor carries a
target URL fails immediately, with zero network attempts, and the error
returned by Response and by Do contains the Connection Closed message; a
descriptor with no URL also makes zero attempts but reports the no-URL
error instead. -/
theorem closed_client_fails_fast (c c2 : ClientState) (hcl : c.Close = .ok c2)
    (r : R) (_hrc : r.c = c2) (u : String) (hu : r.uri = some u)
    (net : Nat → NetResult) (val : DoVal) (sink : FileModel) :
    ((r.Response (seqOracle c2 net)).attempts = 0 ∧
      ∃ e, (r.Response (seqOracle c2 net)).result = .error e ∧
        "Connection Closed" ∈ e.messages) ∧
    ((r.Do (seqOracle c2 net) val sink).attempts = 0 ∧
      ∃ e, (r.Do (seqOracle c2 net) val sink).err = some (.me e) ∧
        "Connection Closed" ∈ e.messages) := by
  have h2 : c2.closed = true := by
    unfold ClientState.Close at hcl
    by_cases hc : c.closerClosed = true
    · simp [hc] at hcl
    · simp [hc] at hcl
      rw [← hcl]
  have h0 : (seqOracle c2 net).closedAt 0 = true := h2
  have hResp := Response_closed_preflight r (seqOracle c2 net) u hu h0
  have hRespD := Response_closed_preflight (doR2 r val) (seqOracle c2 net) u
    (by rw [doR2_uri]; exact hu) h0
  refine ⟨⟨?_, ?_⟩, ?_, ?_⟩
  · rw [hResp]
  · rw [hResp]
    exact ⟨_, rfl, self_mem_messages_errorf _ _⟩
  · rw [Do_attempts, hRespD]
  · refine ⟨(doR2 r val).err.errorf "Connection Closed", ?_, self_mem_messages_errorf _ _⟩
    exact Do_err_of_response_error r (seqOracle c2 net) val sink _ (by rw [hRespD])

/-- A round trip with a URL built on the closed client, the C2 witness
input. -/
def rClosedW : R := (closedClient.Req).UrlFor ["machines"]

/-- Witness for the amended C2 at a concrete closed client and URL. -/
theorem closed_client_fails_fast_witness :
    defaultClient.Close = .ok closedClient ∧
    rClosedW.c = closedClient ∧
    rClosedW.uri = some "https://127.0.0.1:8092/api/v3/machines" ∧
    (((rClosedW.Response (seqOracle closedClient (fun _ => .transportErr "x"))).attempts = 0 ∧
      ∃ e, (rClosedW.Response (seqOracle closedClient (fun _ => .transportErr "x"))).result
          = .error e ∧ "Connection Closed" ∈ e.messages) ∧
    ((rClosedW.Do (seqOracle closedClient (fun _ => .transportErr "x")) .vnone {}).attempts = 0 ∧
      ∃ e, (rClosedW.Do (seqOracle closedClient (fun _ => .transportErr "x")) .vnone {}).err
          = some (.me e) ∧ "Connection Closed" ∈ e.messages)) :=
  ⟨by decide, rfl, by decide,
    closed_client_fails_fast defaultClient closedClient (by decide) rClosedW rfl
      "https://127.0.0.1:8092/api/v3/machines" (by decide)
      (fun _ => .transportErr "x") .vnone {}⟩

/-- With a replayable (absent or rewindable) body, no concurrent close and
retry enabled, the loop returns the response of the first successful
attempt, having made exactly the preceding failed attempts plus one and
slept exactly the schedule prefix before it. -/
lemma respLoop_succeeds (eb : ModelsError) (body : Option BodyRT) (or : Oracle)
    (hbody : body = none ∨ body = some ⟨true, true⟩)
    (hcl : ∀ n, or.closedAt n = false) :
    ∀ (ts : List Nat) (a cr : Nat) (inf : Option Info) (ws : List Nat) (lm : String) (k : Nat),
      k < ts.length →
      (∀ j, j < k → ∃ m, or.net (a + j) = .transportErr m) →
      ∀ resp, or.net (a + k) = .httpResp resp →
        (respLoop eb body false or ts a cr inf ws lm).result = .ok resp ∧
        (respLoop eb body false or ts a cr inf ws lm).attempts = a + k + 1 ∧
        (respLoop eb body false or ts a cr inf ws lm).waits = ws ++ ts.take k := by
  intro ts
  induction ts with
  | nil =>
      intro a cr inf ws lm k hk
      simp at hk
  | cons w rest ih =>
      intro a cr inf ws lm k hk hfail resp hok
      cases k with
      | zero =>
          simp only [Nat.add_zero] at hok
          rcases hbody with hb | hb <;> subst hb <;>
            simp [respLoop, hok]
      | succ k2 =>
          obtain ⟨m0, hm0⟩ := hfail 0 (Nat.succ_pos k2)
          simp only [Nat.add_zero] at hm0
          have hfail2 : ∀ j, j < k2 → ∃ m, or.net (a + 1 + j) = .transportErr m := by
            intro j hj
            obtain ⟨m, hm⟩ := hfail (j + 1) (by omega)
            exact ⟨m, by rw [show a + 1 + j = a + (j + 1) by omega]; exact hm⟩
          have hok2 : or.net (a + 1 + k2) = .httpResp resp := by
            rw [show a + 1 + k2 = a + (k2 + 1) by omega]; exact hok
          rcases hbody with hb | hb <;> subst hb
          · have hstep : respLoop eb none false or (w :: rest) a cr inf ws lm =
                respLoop eb none false or rest (a + 1) (cr + 1) none (ws ++ [w]) m0 := by
              simp [respLoop, hm0, hcl cr]
            rw [hstep]
            obtain ⟨h1, h2, h3⟩ := ih (a + 1) (cr + 1) none (ws ++ [w]) m0 k2
              (by simpa using hk) hfail2 resp hok2
            refine ⟨h1, by omega, ?_⟩
            rw [h3, List.append_assoc]
            simp [List.take_succ_cons]
          · have hstep : respLoop eb (some ⟨true, true⟩) false or (w :: rest) a cr inf ws lm =
                respLoop eb (some ⟨true, true⟩) false or rest (a + 1) (cr + 1) inf
                  (ws ++ [w]) m0 := by
              simp [respLoop, hm0, hcl cr]
            rw [hstep]
            obtain ⟨h1, h2, h3⟩ := ih (a + 1) (cr + 1) inf (ws ++ [w]) m0 k2
              (by simpa using hk) hfail2 resp hok2
            refine ⟨h1, by omega, ?_⟩
            rw [h3, List.append_assoc]
            simp [List.take_succ_cons]

/-- With a replayable body, no concurrent close and retry enabled, when
every scheduled attempt fails at the transport level the loop makes one
attempt per schedule entry, sleeps the whole schedule, and returns an
error. -/
lemma respLoop_exhausts (eb : ModelsError) (body : Option BodyRT) (or : Oracle)
    (hbody : body = none ∨ body = some ⟨true, true⟩)
    (hcl : ∀ n, or.closedAt n = false) :
    ∀ (ts : List Nat) (a cr : Nat) (inf : Option Info) (ws : List Nat) (lm : String),
      (∀ j, j < ts.length → ∃ m, or.net (a + j) = .transportErr m) →
      (respLoop eb body false or ts a cr inf ws lm).attempts = a + ts.length ∧
      (∃ e, (respLoop eb body false or ts a cr inf ws lm).result = .error e) ∧
      (respLoop eb body false or ts a cr inf ws lm).waits = ws ++ ts := by
  intro ts
  induction ts with
  | nil =>
      intro a cr inf ws lm _
      exact ⟨rfl, ⟨_, rfl⟩, by simp [respLoop]⟩
  | cons w rest ih =>
      intro a cr inf ws lm hfail
      obtain ⟨m0, hm0⟩ := hfail 0 (by simp)
      simp only [Nat.add_zero] at hm0
      have hfail2 : ∀ j, j < rest.length → ∃ m, or.net (a + 1 + j) = .transportErr m := by
        intro j hj
        obtain ⟨m, hm⟩ := hfail (j + 1) (by simp; omega)
        exact ⟨m, by rw [show a + 1 + j = a + (j + 1) by omega]; exact hm⟩
      rcases hbody with hb | hb <;> subst hb
      · have hstep : respLoop eb none false or (w :: rest) a cr inf ws lm =
            respLoop eb none false or rest (a + 1) (cr + 1) none (ws ++ [w]) m0 := by
          simp [respLoop, hm0, hcl cr]
        rw [hstep]
        obtain ⟨h1, h2, h3⟩ := ih (a + 1) (cr + 1) none (ws ++ [w]) m0 hfail2
        refine ⟨by rw [h1]; simp; omega, h2, ?_⟩
        rw [h3, List.append_assoc]
        rfl
      · have hstep : respLoop eb (some ⟨true, true⟩) false or (w :: rest) a cr inf ws lm =
            respLoop eb (some ⟨true, true⟩) false or rest (a + 1) (cr + 1) inf
              (ws ++ [w]) m0 := by
          simp [respLoop, hm0, hcl cr]
        rw [hstep]
        obtain ⟨h1, h2, h3⟩ := ih (a + 1) (cr + 1) inf (ws ++ [w]) m0 hfail2
        refine ⟨by rw [h1]; simp; omega, h2, ?_⟩
        rw [h3, List.append_assoc]
        rfl

/-- C3: on an error-free descriptor with retry enabled: a transport
failure with a non-seekable body aborts after exactly one attempt; with an
absent or rewindable body the engine retries following the fixed schedule
1,1,2,3,5,8 seconds, returns the response of the first attempt among the
at most 6 that succeeds (having slept exactly the schedule prefix), and
errors out after 6 failed attempts having slept the whole schedule. -/
theorem retry_schedule_and_body_seekability (r : R) (or : Oracle) (u : String)
    (hu : r.uri = some u) (he : r.err.messages = [])
    (hnr : r.noRetry = false) (hrtt : r.c.roundTripTimeout = 0)
    (hcl : ∀ n, or.closedAt n = false) :
    (∀ b msg, r.body = some b → b.seekable = false → or.net 0 = .transportErr msg →
      (r.Response or).attempts = 1 ∧ ∃ e, (r.Response or).result = .error e) ∧
    ((r.body = none ∨ r.body = some ⟨true, true⟩) →
      (∀ k, k < 6 → (∀ j, j < k → ∃ m, or.net j = .transportErr m) →
        ∀ resp, or.net k = .httpResp resp →
          (r.Response or).result = .ok resp ∧ (r.Response or).attempts = k + 1 ∧
          (r.Response or).waits = timeouts.take k) ∧
      ((∀ j, j < 6 → ∃ m, or.net j = .transportErr m) →
        (r.Response or).attempts = 6 ∧ (∃ e, (r.Response or).result = .error e) ∧
        (r.Response or).waits = timeouts)) := by
  have hloop := Response_enters_loop r or u hu he hnr hrtt (hcl 0)
  refine ⟨?_, fun hb => ⟨?_, ?_⟩⟩
  · rintro b msg hbody hseek hn0
    rw [hloop, hbody]
    refine ⟨?_, r.err.errorf msg, ?_⟩ <;>
      simp [timeouts, respLoop, hn0, hseek]
  · intro k hk hfail resp hok
    rw [hloop]
    have h := respLoop_succeeds r.err r.body or hb hcl timeouts 0 1 r.c.info [] "" k
      (by simpa [timeouts] using hk) (by simpa using hfail) resp (by simpa using hok)
    simpa using h
  · intro hfail
    rw [hloop]
    have h := respLoop_exhausts r.err r.body or hb hcl timeouts 0 1 r.c.info [] ""
      (by simpa [timeouts] using hfail)
    simpa [timeouts] using h

/-- A rewindable-body request on the default client, the C3 witness
input. -/
def rSeekW : R := ((defaultClient.Req).UrlFor ["machines"]).Body .vbytes

/-- The successful response of the C3 witness oracle. -/
def respSeekW : Resp := { status := 200 }

/-- A C3 witness oracle: the first two attempts fail at the transport
level, the third succeeds. -/
def orSeekW : Oracle :=
  ⟨fun _ => false, fun j => if j < 2 then .transportErr "boom" else .httpResp respSeekW⟩

/-- Witness for C3: with a rewindable body and two transport failures
followed by a success, the round trip succeeds on the third attempt having
slept 1s twice. -/
theorem retry_schedule_and_body_seekability_witness :
    (rSeekW.uri = some "https://127.0.0.1:8092/api/v3/machines" ∧
      rSeekW.err.messages = [] ∧ rSeekW.noRetry = false ∧
      rSeekW.c.roundTripTimeout = 0 ∧ rSeekW.body = some ⟨true, true⟩) ∧
    ((rSeekW.Response orSeekW).result = .ok respSeekW ∧
      (rSeekW.Response orSeekW).attempts = 3 ∧
      (rSeekW.Response orSeekW).waits = [1, 1]) := by
  refine ⟨⟨by decide, by decide, rfl, rfl, by decide⟩, ?_⟩
  have h := (retry_schedule_and_body_seekability rSeekW orSeekW
      "https://127.0.0.1:8092/api/v3/machines" (by decide) (by decide) rfl rfl
      (fun n => rfl)).2 (Or.inr (by decide))
  have h2 := h.1 2 (by omega) (fun j hj => ⟨"boom", by interval_cases j <;> decide⟩)
    respSeekW (by decide)
  simpa [timeouts] using h2

/-- One step of the bodyless retry path: on a transport failure with the
closed flag observed open, the loop nulls the Info cache, records the
sleep, and continues. -/
lemma respLoop_step_bodyNil (eb : ModelsError) (or : Oracle) (w : Nat) (rest : List Nat)
    (a cr : Nat) (inf : Option Info) (ws : List Nat) (lm msg : String)
    (hn : or.net a = .transportErr msg) (hc : or.closedAt cr = false) :
    respLoop eb none false or (w :: rest) a cr inf ws lm =
      respLoop eb none false or rest (a + 1) (cr + 1) none (ws ++ [w]) msg := by
  simp [respLoop, hn, hc]

/-- In the bodyless retry path the Info cache, once nulled, stays null
whatever happens afterwards. -/
lemma respLoop_bodyNil_info (eb : ModelsError) (or : Oracle) :
    ∀ (ts : List Nat) (a cr : Nat) (ws : List Nat) (lm : String),
      (respLoop eb none false or ts a cr none ws lm).infoAfter = none := by
  intro ts
  induction ts with
  | nil => intro a cr ws lm; rfl
  | cons w rest ih =>
      intro a cr ws lm
      rcases hn : or.net a with m | resp
      · cases hc : or.closedAt cr
        · rw [respLoop_step_bodyNil eb or w rest a cr none ws lm m hn hc]
          exact ih _ _ _ _
        · simp [respLoop, hn, hc]
      · simp [respLoop, hn]

/-- The retry path of a request with a body never touches the Info
cache. -/
lemma respLoop_body_info (eb : ModelsError) (b : BodyRT) (or : Oracle) :
    ∀ (ts : List Nat) (a cr : Nat) (inf : Option Info) (ws : List Nat) (lm : String),
      (respLoop eb (some b) false or ts a cr inf ws lm).infoAfter = inf := by
  intro ts
  induction ts with
  | nil => intro a cr inf ws lm; rfl
  | cons w rest ih =>
      intro a cr inf ws lm
      rcases hn : or.net a with m | resp
      · cases hsk : b.seekable
        · simp [respLoop, hn, hsk]
        · cases hso : b.seekOk
          · simp [respLoop, hn, hsk, hso]
          · cases hc : or.closedAt cr
            · simp only [respLoop, hn, hsk, hso, hc]
              simp only [Bool.not_true, Bool.false_eq_true, if_false, if_neg]
              exact ih _ _ _ _ _
            · simp [respLoop, hn, hsk, hso, hc]
      · simp [respLoop, hn]

/-- A client holding a cached server Info. -/
def cInfoW : ClientState := { defaultClient with info := some { arch := "amd64" } }

/-- A rewindable-body request built on the client with cached Info, the
C4 counterexample input. -/
def rBodyInfoW : R := ((cInfoW.Req).UrlFor ["machines"]).Body .vbytes

/-- An oracle whose first attempt fails at the transport level and whose
second succeeds, with no concurrent close. -/
def orRetryW : Oracle :=
  ⟨fun _ => false, fun j => if j == 0 then .transportErr "conn reset" else .httpResp respSeekW⟩

/-- C4 counterexample: a request WITH a (rewindable) body that fails once
and is retried (two attempts, one backoff sleep) finishes with the cached
server Info still present — the engine never set it to nil before the
retry, refuting the claim that this happens for every executed request. -/
theorem retry_info_invalidation_counterexample :
    (rBodyInfoW.Response orRetryW).attempts = 2 ∧
    (rBodyInfoW.Response orRetryW).waits = [1] ∧
    (rBodyInfoW.Response orRetryW).infoAfter = some { arch := "amd64" } := by
  refine ⟨?_, ?_, ?_⟩ <;> decide

/-- C4 (amended): before each retry the engine re-checks the closed flag
and fails fast with Connection Closed when it observes a closed client;
the cached server Info, however, is set to nil only on the bodyless retry
path — a request with a body leaves the cached Info untouched. -/
theorem retry_recheck_closed_and_info (r : R) (or : Oracle) (u msg : String)
    (hu : r.uri = some u) (he : r.err.messages = [])
    (hnr : r.noRetry = false) (hrtt : r.c.roundTripTimeout = 0)
    (h0 : or.closedAt 0 = false) (hn0 : or.net 0 = .transportErr msg) :
    ((r.body = none ∨ r.body = some ⟨true, true⟩) → or.closedAt 1 = true →
      (r.Response or).attempts = 1 ∧
      ∃ e, (r.Response or).result = .error e ∧ "Connection Closed" ∈ e.messages) ∧
    (r.body = none → or.closedAt 1 = false → (r.Response or).infoAfter = none) ∧
    (∀ b, r.body = some b → (r.Response or).infoAfter = r.c.info) := by
  have hloop := Response_enters_loop r or u hu he hnr hrtt h0
  refine ⟨?_, ?_, ?_⟩
  · rintro (hb | hb) hc1 <;> rw [hloop, hb] <;>
      refine ⟨?_, r.err.errorf "Connection Closed", ?_, self_mem_messages_errorf _ _⟩ <;>
      simp [timeouts, respLoop, hn0, hc1]
  · intro hb hc1
    rw [hloop, hb]
    simp only [timeouts]
    rw [respLoop_step_bodyNil r.err or 1 [1, 2, 3, 5, 8] 0 1 r.c.info [] "" msg hn0 hc1]
    exact respLoop_bodyNil_info r.err or _ _ _ _ _
  · intro b hb
    rw [hloop, hb]
    exact respLoop_body_info r.err b or _ _ _ _ _ _

/-- A bodyless request on the default client, a C4 witness input. -/
def rNoBodyW : R := (defaultClient.Req).UrlFor ["machines"]

/-- A C4 witness oracle: transport failures, and the closed flag observed
true exactly at the pre-retry re-check. -/
def orC4a : Oracle := ⟨fun n => decide (n = 1), fun _ => .transportErr "boom"⟩

/-- A C4 witness oracle: transport failures, never closed. -/
def orC4b : Oracle := ⟨fun _ => false, fun _ => .transportErr "boom"⟩

/-- Witness for the amended C4, instantiating all three parts: fail-fast
on the pre-retry closed check, Info nulled on the bodyless retry path, and
Info preserved on the body retry path. -/
theorem retry_recheck_closed_and_info_witness :
    ((rNoBodyW.Response orC4a).attempts = 1 ∧
      ∃ e, (rNoBodyW.Response orC4a).result = .error e ∧
        "Connection Closed" ∈ e.messages) ∧
    (rNoBodyW.Response orC4b).infoAfter = none ∧
    (rBodyInfoW.Response orC4b).infoAfter = some { arch := "amd64" } := by
  refine ⟨?_, ?_, ?_⟩
  · exact (retry_recheck_closed_and_info rNoBodyW orC4a
      "https://127.0.0.1:8092/api/v3/machines" "boom" (by decide) (by decide) rfl rfl
      (by decide) (by decide)).1 (Or.inl rfl) (by decide)
  · exact (retry_recheck_closed_and_info rNoBodyW orC4b
      "https://127.0.0.1:8092/api/v3/machines" "boom" (by decide) (by decide) rfl rfl
      (by decide) (by decide)).2.1 rfl rfl
  · have h := (retry_recheck_closed_and_info rBodyInfoW orC4b
      "https://127.0.0.1:8092/api/v3/machines" "boom" (by decide) (by decide) rfl rfl
      (by decide) (by decide)).2.2 ⟨true, true⟩ (by decide)
    rw [h]
    decide

/-- UrlFor never fails on the URLs this package builds: it stores a URI
and leaves every other descriptor field unchanged. -/
lemma UrlFor_ok (r : R) (args : List String) :
    ∃ u, (r.UrlFor args).uri = some u ∧ (r.UrlFor args).err = r.err ∧
      (r.UrlFor args).c = r.c ∧ (r.UrlFor args).method = r.method ∧
      (r.UrlFor args).body = r.body ∧ (r.UrlFor args).noRetry = r.noRetry ∧
      (r.UrlFor args).ctxBackground = r.ctxBackground := by
  unfold R.UrlFor ClientState.UrlForProxy parseRequestURI
  cases hp : r.proxy == ""
  · exact ⟨_, rfl, rfl, rfl, rfl, rfl, rfl, rfl⟩
  · exact ⟨_, rfl, rfl, rfl, rfl, rfl, rfl, rfl⟩

/-- C8: when the round trip yields a 304 and the destination is a writer
that also supports seeking, Do reports no error and leaves the destination
positioned at end-of-file, with its contents neither truncated nor
written. -/
theorem do_304_seekable_writer_eof (r : R) (or : Oracle) (sink : FileModel)
    (u : String) (hu : r.uri = some u) (he : r.err.messages = [])
    (h0 : or.closedAt 0 = false) (resp : Resp)
    (hn : or.net 0 = .httpResp resp) (hs : resp.status = 304) :
    (r.Do or (.vwriter true) sink).err = none ∧
    (r.Do or (.vwriter true) sink).sink =
      { data := sink.data, pos := sink.data.length } := by
  have hResp := Response_first_ok (doR2 r (.vwriter true)) or u resp
    (by rw [doR2_uri]; exact hu) (by rw [doR2_err]; exact he) h0 hn
  simp only [R.Do]
  rw [hResp]
  simp [doFinish, hs, doValStart]

/-- The 304 response of the C8 witness oracle. -/
def resp304W : Resp := { status := 304 }

/-- The C8 witness oracle: every attempt answers 304. -/
def or304W : Oracle := ⟨fun _ => false, fun _ => .httpResp resp304W⟩

/-- A concrete partially-read destination for the C8 witness. -/
def sink0 : FileModel := { data := [10, 20, 30], pos := 1 }

/-- Witness for C8: a 304 on a seekable writer destination leaves the
three stored bytes intact, moves the position to 3, and reports no
error. -/
theorem do_304_seekable_writer_eof_witness :
    (rNoBodyW.Do or304W (.vwriter true) sink0).err = none ∧
    (rNoBodyW.Do or304W (.vwriter true) sink0).sink = { data := [10, 20, 30], pos := 3 } := by
  have h := do_304_seekable_writer_eof rNoBodyW or304W sink0
    "https://127.0.0.1:8092/api/v3/machines" (by decide) (by decide) rfl resp304W rfl rfl
  refine ⟨h.1, ?_⟩
  rw [h.2]
  decide

/-- Client.Info on a client whose Info cache is populated returns it with
no error and no network attempt, leaving the client unchanged. -/
lemma Info_cache_hit (c : ClientState) (i : Info) (h : c.info = some i) (or : Oracle) :
    c.Info or = { value := i, err := none, attempts := 0, cOut := c } := by
  unfold ClientState.Info
  rw [h]

/-- Recording one more message always yields a present HasError. -/
lemma hasError_errorf_isSome (e : ModelsError) (m : String) :
    ((e.errorf m).hasError).isSome = true := by
  rcases h : e.messages with _ | ⟨a, as⟩ <;>
    simp [ModelsError.hasError, ModelsError.errorf, h]

/-- Every non-transport failure mode of a GET into a typed destination
makes doFinish return a present error while leaving the destination value
untouched: any status at least 400 (whether or not its body can be read
or unmarshalled as a structured error), and any other non-304 status
whose content-type is not application/json or whose non-empty JSON body
fails to decode. -/
lemma doFinish_info_failure (r2 : R) (resp : Resp) (start : Info) (sink : FileModel)
    (hmeth : r2.method = "GET")
    (hfail : 400 ≤ resp.status ∨
      (resp.status < 400 ∧ resp.status ≠ 304 ∧
        (goMediaType resp.contentType ≠ "application/json" ∨
          (resp.contentLength ≠ 0 ∧ resp.jsonDecodeInfo = none)))) :
    ((doFinish r2 resp (.vinfo start) sink).1.isSome = true) ∧
    (doFinish r2 resp (.vinfo start) sink).2.2 = start := by
  unfold doFinish
  rcases hfail with hs | ⟨hlt, hne, hrest⟩
  · cases hrd : resp.bodyReadOk
    · simp [hs, hmeth, hrd, doValStart, (by decide : ("GET" == "HEAD") = false)]
    · rcases hd : resp.errBodyDecode with _ | e
      · simp [hs, hmeth, hrd, hd, doValStart, (by decide : ("GET" == "HEAD") = false)]
      · simp [hs, hmeth, hrd, hd, doValStart, (by decide : ("GET" == "HEAD") = false)]
  · have hs2 : ¬ 400 ≤ resp.status := by omega
    have h304 : (resp.status == 304) = false := beq_eq_false_iff_ne.mpr hne
    unfold doTail
    rcases hrest with hct | ⟨hlen, hdec⟩
    · have hctf : (goMediaType resp.contentType == "application/json") = false :=
        beq_eq_false_iff_ne.mpr hct
      simp [hs2, hmeth, h304, hctf, doValStart, (by decide : ("GET" == "HEAD") = false)]
    · cases hct2 : goMediaType resp.contentType == "application/json"
      · simp [hs2, hmeth, h304, hct2, doValStart, (by decide : ("GET" == "HEAD") = false)]
      · have hlenf : (resp.contentLength == 0) = false := beq_eq_false_iff_ne.mpr hlen
        simp [hs2, hmeth, h304, hct2, hlenf, hdec, doValStart, hasError_errorf_isSome,
          (by decide : ("GET" == "HEAD") = false)]

/-- C10: when the first Info fetch performs one attempt and fails with any
HTTP-level protocol or decode error — a status of at least 400 (whatever
its body read/unmarshal outcome), or any other non-304 status with a
non-JSON content-type or a non-empty JSON body that fails to decode —
Info returns that error but the empty Info allocated before the request
stays cached, and every subsequent Info call returns the empty Info with
no error and zero network attempts, leaving the client unchanged; the
cache is not invalidated on these non-transport errors. -/
theorem info_cache_kept_on_protocol_error (c : ClientState) (or : Oracle)
    (hinfo : c.info = none) (h0 : or.closedAt 0 = false)
    (resp : Resp) (hn : or.net 0 = .httpResp resp)
    (hfail : 400 ≤ resp.status ∨
      (resp.status < 400 ∧ resp.status ≠ 304 ∧
        (goMediaType resp.contentType ≠ "application/json" ∨
          (resp.contentLength ≠ 0 ∧ resp.jsonDecodeInfo = none)))) :
    (c.Info or).err.isSome = true ∧
    (c.Info or).attempts = 1 ∧
    (c.Info or).value = emptyInfo ∧
    (c.Info or).cOut.info = some emptyInfo ∧
    (∀ or2, (c.Info or).cOut.Info or2 =
      { value := emptyInfo, err := none, attempts := 0, cOut := (c.Info or).cOut }) := by
  obtain ⟨u, hu, herr, hrc, hmeth, hbody, hnr, hctx⟩ :=
    UrlFor_ok (ClientState.Req { c with info := some emptyInfo }) ["info"]
  have hmeth2 : ((ClientState.Req { c with info := some emptyInfo }).UrlFor ["info"]).method
      = "GET" := hmeth
  have herr2 : ((ClientState.Req { c with info := some emptyInfo }).UrlFor ["info"]).err.messages
      = [] := by rw [herr]; rfl
  have hrc2 : ((ClientState.Req { c with info := some emptyInfo }).UrlFor ["info"]).c
      = { c with info := some emptyInfo } := hrc
  have hmeth3 : (doR2 ((ClientState.Req { c with info := some emptyInfo }).UrlFor ["info"])
      (.vinfo emptyInfo)).method = "GET" := by rw [doR2_method]; exact hmeth2
  have hResp := Response_first_ok
    (doR2 ((ClientState.Req { c with info := some emptyInfo }).UrlFor ["info"]) (.vinfo emptyInfo))
    or u resp (by rw [doR2_uri]; exact hu) (by rw [doR2_err]; exact herr2) h0 hn
  have hfin := doFinish_info_failure
    (doR2 ((ClientState.Req { c with info := some emptyInfo }).UrlFor ["info"]) (.vinfo emptyInfo))
    resp emptyInfo {} hmeth3 hfail
  have hDo : (((ClientState.Req { c with info := some emptyInfo }).UrlFor ["info"]).Do or
      (.vinfo emptyInfo) ({} : FileModel)) =
      { err := (doFinish (doR2 ((ClientState.Req { c with info := some emptyInfo }).UrlFor
            ["info"]) (.vinfo emptyInfo)) resp (.vinfo emptyInfo) {}).1,
        attempts := 1, waits := [],
        infoAfter := some emptyInfo,
        sink := (doFinish (doR2 ((ClientState.Req { c with info := some emptyInfo }).UrlFor
            ["info"]) (.vinfo emptyInfo)) resp (.vinfo emptyInfo) {}).2.1,
        infoVal := (doFinish (doR2 ((ClientState.Req { c with info := some emptyInfo }).UrlFor
            ["info"]) (.vinfo emptyInfo)) resp (.vinfo emptyInfo) {}).2.2 } := by
    simp only [R.Do]
    rw [hResp]
    simp [hrc2]
  have hInfo : c.Info or =
      { value := emptyInfo,
        err := (doFinish (doR2 ((ClientState.Req { c with info := some emptyInfo }).UrlFor
            ["info"]) (.vinfo emptyInfo)) resp (.vinfo emptyInfo) {}).1,
        attempts := 1,
        cOut := { c with info := some emptyInfo } } := by
    unfold ClientState.Info
    rw [hinfo]
    simp [hDo, hfin.2]
  rw [hInfo]
  refine ⟨hfin.1, rfl, rfl, rfl, fun or2 => ?_⟩
  exact Info_cache_hit _ emptyInfo rfl or2

/-- The protocol-error response of the C10 witness oracle. -/
def resp500W : Resp :=
  { status := 500, errBodyDecode := some { messages := ["srv failure"], code := 500 } }

/-- The C10 witness oracle: every attempt answers the 500. -/
def or500W : Oracle := ⟨fun _ => false, fun _ => .httpResp resp500W⟩

/-- A decode-error response for the C10 witness: a 200 whose content-type
is not application/json. -/
def respCTW : Resp := { status := 200, contentType := "text/plain", contentLength := 5 }

/-- The C10 witness oracle for the decode-error case. -/
def orCTW : Oracle := ⟨fun _ => false, fun _ => .httpResp respCTW⟩

/-- Witness for C10 at the default client, under both covered failure
kinds: a structured 500 protocol error and a 200 with an undecodable
content-type. -/
theorem info_cache_kept_on_protocol_error_witness :
    ((defaultClient.Info or500W).err.isSome = true ∧
      (defaultClient.Info or500W).attempts = 1 ∧
      (defaultClient.Info or500W).value = emptyInfo ∧
      (defaultClient.Info or500W).cOut.info = some emptyInfo ∧
      (∀ or2, (defaultClient.Info or500W).cOut.Info or2 =
        { value := emptyInfo, err := none, attempts := 0,
          cOut := (defaultClient.Info or500W).cOut })) ∧
    ((defaultClient.Info orCTW).err.isSome = true ∧
      (defaultClient.Info orCTW).attempts = 1 ∧
      (defaultClient.Info orCTW).value = emptyInfo ∧
      (defaultClient.Info orCTW).cOut.info = some emptyInfo ∧
      (∀ or2, (defaultClient.Info orCTW).cOut.Info or2 =
        { value := emptyInfo, err := none, attempts := 0,
          cOut := (defaultClient.Info orCTW).cOut })) :=
  ⟨info_cache_kept_on_protocol_error defaultClient or500W rfl rfl resp500W rfl
      (Or.inl (by decide)),
    info_cache_kept_on_protocol_error defaultClient orCTW rfl rfl respCTW rfl
      (Or.inr ⟨by decide, by decide, Or.inl (by decide)⟩)⟩

end Provision
